import Mathlib

/-!
# Genesis block definitions of `chaincfg/genesis.go`

The constants of `chaincfg/genesis.go` (the coinbase transaction, the four
genesis blocks, their expected hashes and Merkle roots) are embedded as Lean
values, byte for byte.  The packages the file imports (`chainhash`, `wire`)
are not part of the file; their types, the two-round digest, the binary
encoder, the Merkle root calculator and the display convention are modelled
from the specification and marked as such.

Bytes are natural numbers below 256, 32-bit words are natural numbers reduced
modulo `2^32`, signed fields are integers reduced to two's complement when
they are encoded.
-/

set_option maxRecDepth 100000

/-! ## The digest primitive -/

namespace Sha256

/-- Modelled from the spec: the modulus of the 32-bit words of the digest
primitive (the `chainhash` package and the SHA-256 it calls are absent). -/
def wordMod : Nat := 4294967296

/-- Modelled from the spec: rotation of a 32-bit word to the right by `n`
places, part of the absent digest primitive. -/
def rotr (x n : Nat) : Nat := ((x >>> n) ||| (x <<< (32 - n))) % wordMod

/-- Modelled from the spec: the choice function `Ch` of the absent SHA-256
primitive; the complement of `x` is taken within 32 bits. -/
def ch (x y z : Nat) : Nat := (x &&& y) ^^^ ((wordMod - 1 - x) &&& z)

/-- Modelled from the spec: the majority function `Maj` of the absent SHA-256
primitive. -/
def maj (x y z : Nat) : Nat := (x &&& y) ^^^ (x &&& z) ^^^ (y &&& z)

/-- Modelled from the spec: the function written Σ0 in the absent SHA-256
primitive. -/
def bigSigma0 (x : Nat) : Nat := rotr x 2 ^^^ rotr x 13 ^^^ rotr x 22

/-- Modelled from the spec: the function written Σ1 in the absent SHA-256
primitive. -/
def bigSigma1 (x : Nat) : Nat := rotr x 6 ^^^ rotr x 11 ^^^ rotr x 25

/-- Modelled from the spec: the function written σ0 in the absent SHA-256
primitive. -/
def smallSigma0 (x : Nat) : Nat := rotr x 7 ^^^ rotr x 18 ^^^ (x >>> 3)

/-- Modelled from the spec: the function written σ1 in the absent SHA-256
primitive. -/
def smallSigma1 (x : Nat) : Nat := rotr x 17 ^^^ rotr x 19 ^^^ (x >>> 10)

/-- Modelled from the spec: `isPrime n` tells whether `n` is a prime number,
by trial division; it serves the constants of the absent SHA-256 primitive. -/
def isPrime (n : Nat) : Bool :=
  decide (2 ≤ n) && (List.range n).all (fun d => decide (d < 2) || n % d != 0)

/-- Modelled from the spec: the first sixty-four prime numbers, 2 to 311
(absent SHA-256 primitive). -/
def firstPrimes : List Nat := [
  2, 3, 5, 7, 11, 13, 17, 19, 23, 29, 31, 37, 41, 43, 47, 53,
  59, 61, 67, 71, 73, 79, 83, 89, 97, 101, 103, 107, 109, 113, 127, 131,
  137, 139, 149, 151, 157, 163, 167, 173, 179, 181, 191, 193, 197, 199, 211, 223,
  227, 229, 233, 239, 241, 251, 257, 263, 269, 271, 277, 281, 283, 293, 307, 311]

/-- Modelled from the spec: `iroot e n k r` refines the approximation `r` of
the `e`-th root of `n` from below on the `k` low bits, so that `iroot e n k 0`
is the integer part of the root when it is below `2 ^ k` (absent SHA-256
primitive). -/
def iroot (e n : Nat) : Nat → Nat → Nat
  | 0, r => r
  | k + 1, r => if (r + 2 ^ k) ^ e ≤ n then iroot e n k (r + 2 ^ k) else iroot e n k r

/-- Modelled from the spec: the first 32 bits of the fractional part of the
`e`-th root of `p`, read off the integer part of the root of
`p * 2 ^ (32 * e)` (absent SHA-256 primitive). -/
def fracRoot (e p : Nat) : Nat := iroot e (p * 2 ^ (32 * e)) 36 0 % wordMod

/-- Modelled from the spec: the 64 round constants of the absent SHA-256
primitive: the first 32 bits of the fractional parts of the cube roots of
the first sixty-four primes. -/
def K : List Nat := firstPrimes.map (fracRoot 3)

/-- Modelled from the spec: the initial chaining value of the absent SHA-256
primitive: the first 32 bits of the fractional parts of the square roots of
the first eight primes. -/
def H0 : List Nat := (firstPrimes.take 8).map (fracRoot 2)

/-- Modelled from the spec: the bytes of a block read as big-endian 32-bit
words, four bytes at a time (absent SHA-256 primitive). -/
def beWords : List Nat → List Nat
  | b0 :: b1 :: b2 :: b3 :: rest =>
    (b0 * 16777216 + b1 * 65536 + b2 * 256 + b3) :: beWords rest
  | _ => []

/-- Modelled from the spec: the four bytes of a 32-bit word, most significant
first (absent SHA-256 primitive). -/
def beBytes (w : Nat) : List Nat :=
  [w / 16777216 % 256, w / 65536 % 256, w / 256 % 256, w % 256]

/-- Modelled from the spec: `schedule n win` yields the next `n` words of the
message schedule of the absent SHA-256 primitive; `win` holds the sixteen
words before them, oldest first, so that
`W t = σ1 (W (t-2)) + W (t-7) + σ0 (W (t-15)) + W (t-16)`. -/
def schedule : Nat → List Nat → List Nat
  | 0, _ => []
  | n + 1, win =>
    match win with
    | [] => []
    | w0 :: rest =>
      let w := (smallSigma1 (win.getD 14 0) + win.getD 9 0
                + smallSigma0 (win.getD 1 0) + w0) % wordMod
      w :: schedule n (rest ++ [w])

/-- Modelled from the spec: the 64 words of the message schedule of one
64-byte block (absent SHA-256 primitive). -/
def expand (block : List Nat) : List Nat :=
  beWords block ++ schedule 48 (beWords block)

/-- Modelled from the spec: one round of the compression function of the
absent SHA-256 primitive, on the working variables `a` to `h`, with the round
constant and the schedule word paired in `kw`. -/
def round (st : List Nat) (kw : Nat × Nat) : List Nat :=
  match st with
  | [a, b, c, d, e, f, g, h] =>
    let t1 := h + bigSigma1 e + ch e f g + kw.1 + kw.2
    let t2 := bigSigma0 a + maj a b c
    [(t1 + t2) % wordMod, a, b, c, (d + t1) % wordMod, e, f, g]
  | _ => st

/-- Modelled from the spec: the compression of one 64-byte block into the
chaining value (absent SHA-256 primitive). -/
def compress (st : List Nat) (block : List Nat) : List Nat :=
  List.zipWith (fun x y => (x + y) % wordMod) st ((K.zip (expand block)).foldl round st)

/-- Modelled from the spec: the padded message cut into at most `n` blocks
of 64 bytes (absent SHA-256 primitive). -/
def chunks : Nat → List Nat → List (List Nat)
  | 0, _ => []
  | n + 1, bs => if bs.isEmpty then [] else bs.take 64 :: chunks n (bs.drop 64)

/-- Modelled from the spec: the padding of the absent SHA-256 primitive: the
byte `0x80`, zero bytes up to 56 modulo 64, then the bit length of the
message as a 64-bit big-endian number. -/
def pad (msg : List Nat) : List Nat :=
  msg ++ [0x80] ++ List.replicate ((119 - msg.length % 64) % 64) 0
    ++ beBytes (8 * msg.length / wordMod % wordMod) ++ beBytes (8 * msg.length % wordMod)

/-- Modelled from the spec: the SHA-256 digest of a byte sequence, the
single round of the two-round digest (the primitive is absent). -/
def sum256 (msg : List Nat) : List Nat :=
  ((chunks ((pad msg).length / 64) (pad msg)).foldl compress H0).flatMap beBytes

end Sha256

/-! ## Hashes -/

namespace chainhash

/-- Modelled from the spec: the length in bytes of a hash, `HashSize` of the
absent `chainhash` package. -/
def HashSize : Nat := 32

/-- Modelled from the spec: a hash is a fixed-length (32-byte) identifier,
kept in storage byte order; the type `chainhash.Hash` is absent. -/
abbrev Hash : Type := List Nat

/-- Modelled from the spec: the all-zero hash, the value of the composite
literal `chainhash.Hash{}` of the absent `chainhash` package. -/
def zeroHash : Hash := List.replicate HashSize 0

/-- Modelled from the spec: `hash(bytes) -> Hash`, the two-round digest
(a digest of a digest) over the input bytes; the function of the absent
`chainhash` package is missing. -/
def hash (bytes : List Nat) : Hash := Sha256.sum256 (Sha256.sum256 bytes)

/-- Modelled from the spec: a lower-case hexadecimal digit, used by the
absent display function. -/
def hexDigit (n : Nat) : Char := "0123456789abcdef".toList.getD n '0'

/-- Modelled from the spec: the hex encoding of a byte sequence in the order
given, two digits per byte (absent `chainhash` package). -/
def toHex (bs : List Nat) : String :=
  String.mk (bs.flatMap (fun b => [hexDigit (b / 16 % 16), hexDigit (b % 16)]))

/-- Modelled from the spec: `toDisplayHex(Hash) -> string` reverses byte
order before hex-encoding; the display function of the absent `chainhash`
package is missing. -/
def toDisplayHex (h : Hash) : String := toHex h.reverse

end chainhash

/-! ## Wire types and the binary encoder -/

namespace wire

/-- Modelled from the spec: an outpoint is the hash of the referenced
transaction and a 32-bit output index; the type `wire.OutPoint` is absent. -/
structure OutPoint where
  Hash : chainhash.Hash
  Index : Nat
deriving DecidableEq, Repr

/-- Modelled from the spec: a transaction input is an outpoint, a byte
payload of arbitrary length and a 32-bit sequence number; the type
`wire.TxIn` is absent. -/
structure TxIn where
  PreviousOutPoint : OutPoint
  SignatureScript : List Nat
  Sequence : Nat
deriving DecidableEq, Repr

/-- Modelled from the spec: a transaction output is a 64-bit signed value
and a byte payload of arbitrary length; the type `wire.TxOut` is absent. -/
structure TxOut where
  Value : Int
  PkScript : List Nat
deriving DecidableEq, Repr

/-- Modelled from the spec: a transaction is a 32-bit version, the ordered
inputs, the ordered outputs and a 32-bit lock time; the type `wire.MsgTx` is
absent. -/
structure MsgTx where
  Version : Int
  TxIn : List TxIn
  TxOut : List TxOut
  LockTime : Nat
deriving DecidableEq, Repr

/-- Modelled from the spec: a block header is a 32-bit version, the hash of
the previous block, the Merkle root, a 32-bit Unix timestamp, the 32-bit
compact difficulty target and a 32-bit nonce; the type `wire.BlockHeader` is
absent.  `Timestamp` holds the seconds `s` of `time.Unix(s, 0)`. -/
structure BlockHeader where
  Version : Int
  PrevBlock : chainhash.Hash
  MerkleRoot : chainhash.Hash
  Timestamp : Int
  Bits : Nat
  Nonce : Nat
deriving DecidableEq, Repr

/-- Modelled from the spec: a block is a header and the ordered sequence of
its transactions; the type `wire.MsgBlock` is absent.  The source stores
pointers to transactions, the embedding stores the values pointed to. -/
structure MsgBlock where
  Header : BlockHeader
  Transactions : List MsgTx
deriving DecidableEq, Repr

/-- Modelled from the spec: the `width` low bytes of a number, least
significant first (integers are little-endian throughout); the encoder is
absent. -/
def leBytes (width v : Nat) : List Nat :=
  (List.range width).map (fun i => v / 256 ^ i % 256)

/-- Modelled from the spec: an unsigned 32-bit field in four little-endian
bytes (absent encoder). -/
def putUint32 (v : Nat) : List Nat := leBytes 4 (v % 4294967296)

/-- Modelled from the spec: a signed 32-bit field in four little-endian
bytes, two's complement (absent encoder). -/
def putInt32 (v : Int) : List Nat := leBytes 4 (v % 4294967296).toNat

/-- Modelled from the spec: a signed 64-bit field in eight little-endian
bytes, two's complement (absent encoder). -/
def putInt64 (v : Int) : List Nat := leBytes 8 (v % 18446744073709551616).toNat

/-- Modelled from the spec: the compact-size count that prefixes payloads
and sequences: small counts are stored in 1 byte, larger counts are flagged
and stored in 2, 4 or 8 bytes (absent encoder). -/
def putVarInt (n : Nat) : List Nat :=
  if n < 0xfd then [n]
  else if n ≤ 0xffff then 0xfd :: leBytes 2 n
  else if n ≤ 0xffffffff then 0xfe :: leBytes 4 n
  else 0xff :: leBytes 8 (n % 18446744073709551616)

/-- Modelled from the spec: a byte payload prefixed by its compact-size
length (absent encoder). -/
def putVarBytes (bs : List Nat) : List Nat := putVarInt bs.length ++ bs

/-- Modelled from the spec: the encoding of a transaction input, fields in
the order of the data model: outpoint hash, outpoint index, length-prefixed
payload, sequence number (absent encoder). -/
def encodeTxIn (ti : TxIn) : List Nat :=
  ti.PreviousOutPoint.Hash ++ putUint32 ti.PreviousOutPoint.Index
    ++ putVarBytes ti.SignatureScript ++ putUint32 ti.Sequence

/-- Modelled from the spec: the encoding of a transaction output: value,
then the length-prefixed payload (absent encoder). -/
def encodeTxOut (out : TxOut) : List Nat :=
  putInt64 out.Value ++ putVarBytes out.PkScript

/-- Modelled from the spec: `encodeTransaction(Transaction) -> bytes`:
version, length-prefixed inputs, length-prefixed outputs, lock time; the
function of the absent `wire` package is missing. -/
def encodeTransaction (tx : MsgTx) : List Nat :=
  putInt32 tx.Version
    ++ putVarInt tx.TxIn.length ++ tx.TxIn.flatMap encodeTxIn
    ++ putVarInt tx.TxOut.length ++ tx.TxOut.flatMap encodeTxOut
    ++ putUint32 tx.LockTime

/-- Modelled from the spec: `encodeHeader(BlockHeader) -> bytes`: version,
previous block hash, Merkle root, timestamp, bits, nonce, in this order; the
function of the absent `wire` package is missing. -/
def encodeHeader (h : BlockHeader) : List Nat :=
  putInt32 h.Version ++ h.PrevBlock ++ h.MerkleRoot
    ++ putUint32 (h.Timestamp % 4294967296).toNat ++ putUint32 h.Bits ++ putUint32 h.Nonce

/-- Modelled from the spec: the identity hash of a block is the hash
primitive applied to the serialized header only (`computeBlockHash`); the
method of the absent `wire` package is missing. -/
def computeBlockHash (h : BlockHeader) : chainhash.Hash :=
  chainhash.hash (encodeHeader h)

/-- Modelled from the spec: one level of the Merkle tree: adjacent hashes
are concatenated pairwise and re-hashed with the two-round digest, the last
one being duplicated when the count is odd (absent calculator). -/
def hashPairs : List chainhash.Hash → List chainhash.Hash
  | [] => []
  | [a] => [chainhash.hash (a ++ a)]
  | a :: b :: rest => chainhash.hash (a ++ b) :: hashPairs rest

/-- Modelled from the spec: levels are combined until one hash remains; a
single leaf is the root itself, with no further combination.  `fuel` bounds
the number of levels; an empty list has no root (absent calculator). -/
def merkleLevels : Nat → List chainhash.Hash → Option chainhash.Hash
  | _, [] => none
  | _, [h] => some h
  | 0, _ :: _ :: _ => none
  | fuel + 1, a :: b :: rest => merkleLevels fuel (hashPairs (a :: b :: rest))

/-- Modelled from the spec: `merkleRoot(sequence of Transaction) -> Hash`:
the leaves are `hash(encodeTransaction(tx))` for every transaction, combined
level by level; the calculator is absent from `genesis.go`. -/
def merkleRoot (txs : List MsgTx) : Option chainhash.Hash :=
  merkleLevels txs.length (txs.map (fun tx => chainhash.hash (encodeTransaction tx)))

end wire

/-! ## The genesis definitions of `chaincfg/genesis.go` -/

namespace chaincfg

/-- The coinbase transaction for the genesis blocks of the main network, the
regression test network and the test network (version 3). -/
def genesisCoinbaseTx : wire.MsgTx :=
  { Version := 1
    TxIn := [
      { PreviousOutPoint := { Hash := chainhash.zeroHash, Index := 0xffffffff }
        SignatureScript := [
          0x54, 0x68, 0x65, 0x20, 0x54, 0x69, 0x6d, 0x65,
          0x73, 0x20, 0x32, 0x31, 0x2f, 0x41, 0x70, 0x72,
          0x2f, 0x32, 0x30, 0x31, 0x38, 0x20, 0x27, 0x57,
          0x65, 0x20, 0x4e, 0x6f, 0x20, 0x4c, 0x6f, 0x6e,
          0x67, 0x65, 0x72, 0x20, 0x4e, 0x65, 0x65, 0x64,
          0x27, 0x20, 0x4e, 0x75, 0x63, 0x6c, 0x65, 0x61,
          0x72, 0x20, 0x6f, 0x72, 0x20, 0x4d, 0x69, 0x73,
          0x73, 0x69, 0x6c, 0x65, 0x20, 0x54, 0x65, 0x73,
          0x74, 0x73, 0x2c, 0x20, 0x4e, 0x6f, 0x72, 0x74,
          0x68, 0x20, 0x4b, 0x6f, 0x72, 0x65, 0x61, 0x6e,
          0x20, 0x4c, 0x65, 0x61, 0x64, 0x65, 0x72, 0x20,
          0x53, 0x61, 0x79, 0x73]
        Sequence := 0xffffffff }]
    TxOut := [
      { Value := 0x12a05f200
        PkScript := [
          0x41, 0x04, 0x67, 0x8a, 0xfd, 0xb0, 0xfe, 0x55,
          0x48, 0x27, 0x19, 0x67, 0xf1, 0xa6, 0x71, 0x30,
          0xb7, 0x10, 0x5c, 0xd6, 0xa8, 0x28, 0xe0, 0x39,
          0x09, 0xa6, 0x79, 0x62, 0xe0, 0xea, 0x1f, 0x61,
          0xde, 0xb6, 0x49, 0xf6, 0xbc, 0x3f, 0x4c, 0xef,
          0x38, 0xc4, 0xf3, 0x55, 0x04, 0xe5, 0x1e, 0xc1,
          0x12, 0xde, 0x5c, 0x38, 0x4d, 0xf7, 0xba, 0x0b,
          0x8d, 0x57, 0x8a, 0x4c, 0x70, 0x2b, 0x6b, 0xf1,
          0x1d, 0x5f, 0xac] }]
    LockTime := 0 }

/-- The hash of the first block in the block chain for the main network
(genesis block). -/
def genesisHash : chainhash.Hash := [
  0xbd, 0x8b, 0x94, 0x25, 0xb1, 0xdc, 0x16, 0x6f,
  0x2d, 0x17, 0xa1, 0x53, 0x9f, 0x39, 0x12, 0xf0,
  0x1e, 0xa0, 0xdf, 0x89, 0x7a, 0x99, 0xe3, 0x22,
  0x47, 0x0b, 0x38, 0x03, 0x46, 0xd1, 0x93, 0xe5]

/-- The hash of the first transaction in the genesis block for the main
network. -/
def genesisMerkleRoot : chainhash.Hash := [
  0x61, 0xcf, 0x39, 0xc5, 0xc9, 0x34, 0x8e, 0x81,
  0xe9, 0xf4, 0xc4, 0x39, 0x4c, 0x50, 0x3d, 0xbf,
  0x69, 0xf5, 0x02, 0xf5, 0xf5, 0x26, 0x66, 0x5b,
  0x7d, 0xca, 0x25, 0x79, 0x0e, 0x74, 0x3c, 0x1a]

/-- The genesis block of the block chain which serves as the public
transaction ledger for the main network. -/
def genesisBlock : wire.MsgBlock :=
  { Header :=
      { Version := 1
        PrevBlock := chainhash.zeroHash
        MerkleRoot := genesisMerkleRoot
        Timestamp := 1524352308
        Bits := 0x1e0ffff0
        Nonce := 0x940988CF }
    Transactions := [genesisCoinbaseTx] }

/-- The hash of the first block in the block chain for the regression test
network (genesis block). -/
def regTestGenesisHash : chainhash.Hash := [
  0xbd, 0x8b, 0x94, 0x25, 0xb1, 0xdc, 0x16, 0x6f,
  0x2d, 0x17, 0xa1, 0x53, 0x9f, 0x39, 0x12, 0xf0,
  0x1e, 0xa0, 0xdf, 0x89, 0x7a, 0x99, 0xe3, 0x22,
  0x47, 0x0b, 0x38, 0x03, 0x46, 0xd1, 0x93, 0xe5]

/-- The hash of the first transaction in the genesis block for the
regression test network; the same as the Merkle root for the main network. -/
def regTestGenesisMerkleRoot : chainhash.Hash := genesisMerkleRoot

/-- The genesis block of the block chain which serves as the public
transaction ledger for the regression test network. -/
def regTestGenesisBlock : wire.MsgBlock :=
  { Header :=
      { Version := 1
        PrevBlock := chainhash.zeroHash
        MerkleRoot := regTestGenesisMerkleRoot
        Timestamp := 1524352308
        Bits := 0x1e0ffff0
        Nonce := 0x940988CF }
    Transactions := [genesisCoinbaseTx] }

/-- The hash of the first block in the block chain for the test network
(version 3). -/
def testNet3GenesisHash : chainhash.Hash := [
  0x43, 0x49, 0x7f, 0xd7, 0xf8, 0x26, 0x95, 0x71,
  0x08, 0xf4, 0xa3, 0x0f, 0xd9, 0xce, 0xc3, 0xae,
  0xba, 0x79, 0x97, 0x20, 0x84, 0xe9, 0x0e, 0xad,
  0x01, 0xea, 0x33, 0x09, 0x00, 0x00, 0x00, 0x00]

/-- The hash of the first transaction in the genesis block for the test
network (version 3); the same as the Merkle root for the main network. -/
def testNet3GenesisMerkleRoot : chainhash.Hash := genesisMerkleRoot

/-- The genesis block of the block chain which serves as the public
transaction ledger for the test network (version 3). -/
def testNet3GenesisBlock : wire.MsgBlock :=
  { Header :=
      { Version := 1
        PrevBlock := chainhash.zeroHash
        MerkleRoot := testNet3GenesisMerkleRoot
        Timestamp := 1296688602
        Bits := 0x1d00ffff
        Nonce := 0x18aea41a }
    Transactions := [genesisCoinbaseTx] }

/-- The hash of the first block in the block chain for the simulation test
network. -/
def simNetGenesisHash : chainhash.Hash := [
  0xf6, 0x7a, 0xd7, 0x69, 0x5d, 0x9b, 0x66, 0x2a,
  0x72, 0xff, 0x3d, 0x8e, 0xdb, 0xbb, 0x2d, 0xe0,
  0xbf, 0xa6, 0x7b, 0x13, 0x97, 0x4b, 0xb9, 0x91,
  0x0d, 0x11, 0x6d, 0x5c, 0xbd, 0x86, 0x3e, 0x68]

/-- The hash of the first transaction in the genesis block for the
simulation test network; the same as the Merkle root for the main network. -/
def simNetGenesisMerkleRoot : chainhash.Hash := genesisMerkleRoot

/-- The genesis block of the block chain which serves as the public
transaction ledger for the simulation test network. -/
def simNetGenesisBlock : wire.MsgBlock :=
  { Header :=
      { Version := 1
        PrevBlock := chainhash.zeroHash
        MerkleRoot := simNetGenesisMerkleRoot
        Timestamp := 1401292357
        Bits := 0x207fffff
        Nonce := 2 }
    Transactions := [genesisCoinbaseTx] }

end chaincfg

/-! ## Checks of the modelled primitives -/

namespace Sha256

/-- The list `firstPrimes` holds exactly the primes below 312, in increasing
order, and there are sixty-four of them. -/
theorem firstPrimes_eq :
    firstPrimes = (List.range 312).filter isPrime ∧ firstPrimes.length = 64 := by
  decide!

/-- The round constants run from `428a2f98` to `c67178f2` and the initial
chaining value from `6a09e667` to `5be0cd19`, as published. -/
theorem constants_ends :
    K.head? = some 0x428a2f98 ∧ K.getLast? = some 0xc67178f2
      ∧ H0.head? = some 0x6a09e667 ∧ H0.getLast? = some 0x5be0cd19 := by
  decide!

/-- The digest model reproduces the published SHA-256 value of the empty
message. -/
theorem sum256_empty :
    chainhash.toHex (sum256 [])
      = "e3b0c44298fc1c149afbf4c8996fb92427ae41e4649b934ca495991b7852b855" := by
  decide!

/-- The digest model reproduces the published SHA-256 value of the three
bytes `abc`. -/
theorem sum256_abc :
    chainhash.toHex (sum256 [0x61, 0x62, 0x63])
      = "ba7816bf8f01cfea414140de5dae2223b00361a396177a9cb410ff61f20015ad" := by
  decide!

/-- The digest model reproduces the published SHA-256 value of a 56-byte
message, which takes two blocks once padded. -/
theorem sum256_two_blocks :
    chainhash.toHex (sum256
        (List.map Char.toNat "abcdbcdecdefdefgefghfghighijhijkijkljklmklmnlmnomnopnopq".toList))
      = "248d6a61d20638b8e5c026930c3e6039a33ce45964ff2167f6ecedd419db06c1" := by
  decide!

end Sha256

namespace wire

/-- A level of the Merkle tree over `n` hashes has `(n + 1) / 2` hashes. -/
theorem hashPairs_length : ∀ l : List chainhash.Hash,
    (hashPairs l).length = (l.length + 1) / 2
  | [] => rfl
  | [_] => by simp [hashPairs]
  | _ :: _ :: rest => by
    simp only [hashPairs, List.length_cons, hashPairs_length rest]
    omega

/-- With as many levels allowed as there are leaves, a non-empty list of
leaves always has a Merkle root. -/
theorem merkleLevels_isSome : ∀ (fuel : Nat) (l : List chainhash.Hash),
    l ≠ [] → l.length ≤ fuel + 1 → (merkleLevels fuel l).isSome = true
  | _, [], h, _ => absurd rfl h
  | 0, [_], _, _ => rfl
  | _ + 1, [_], _, _ => rfl
  | 0, _ :: _ :: _, _, h => by simp at h
  | fuel + 1, a :: b :: rest, _, h => by
    have hl := hashPairs_length (a :: b :: rest)
    have hne : hashPairs (a :: b :: rest) ≠ [] := by simp [hashPairs]
    simp only [List.length_cons] at h hl
    exact merkleLevels_isSome fuel (hashPairs (a :: b :: rest)) hne (by omega)

/-- Every non-empty transaction list has a Merkle root: the bound on the
number of levels is never reached. -/
theorem merkleRoot_isSome (txs : List MsgTx) (h : txs ≠ []) :
    (merkleRoot txs).isSome = true := by
  unfold merkleRoot
  apply merkleLevels_isSome
  · simpa using h
  · simp

/-- The Merkle root of a single-transaction list is the hash of that
transaction (the degenerate case). -/
theorem merkleRoot_singleton (tx : MsgTx) :
    merkleRoot [tx] = some (chainhash.hash (encodeTransaction tx)) := rfl

/-- A header whose two hash fields are 32 bytes long encodes to 80 bytes. -/
theorem encodeHeader_length (h : BlockHeader)
    (hp : h.PrevBlock.length = 32) (hm : h.MerkleRoot.length = 32) :
    (encodeHeader h).length = 80 := by
  simp [encodeHeader, putInt32, putUint32, leBytes, hp, hm]

end wire

/-! ## The genesis definitions against the specification -/

namespace chaincfg

/-- C1: main network self-consistency.  The header of `genesisBlock` has
version 1, an all-zero `PrevBlock`, `MerkleRoot = genesisMerkleRoot`,
timestamp 1524352308, bits `0x1e0ffff0` and nonce `0x940988CF`; it encodes to
80 bytes, and the two-round SHA-256 digest of that encoding, in storage byte
order, is byte for byte the constant `genesisHash`. -/
theorem genesisBlock_hash_self_consistent :
    genesisBlock.Header =
        { Version := 1, PrevBlock := List.replicate 32 0, MerkleRoot := genesisMerkleRoot,
          Timestamp := 1524352308, Bits := 0x1e0ffff0, Nonce := 0x940988CF }
      ∧ (wire.encodeHeader genesisBlock.Header).length = 80
      ∧ chainhash.hash (wire.encodeHeader genesisBlock.Header) = genesisHash := by
  decide!

/-- C2: the Merkle root check fails on the stored data.  For each of the four
genesis blocks the Merkle root of the transaction list is the hash of
`genesisCoinbaseTx`, which is `23399b9a…b933` in storage order and differs
from the `MerkleRoot` field of the header (`genesisMerkleRoot`).  The stored
root is the hash of the same transaction once the nine bytes
`04 ff ff 00 1d 01 04 4c 5c` are put back in front of its signature script. -/
theorem genesis_merkleRoot_mismatch :
    List.Forall
        (fun b : wire.MsgBlock =>
          (wire.merkleRoot b.Transactions).map chainhash.toHex
              = some "23399b9a23c655df19ca4dabe63930e7aeb8be1c6c5bf0376417085304e0b933"
            ∧ b.Header.MerkleRoot = genesisMerkleRoot
            ∧ wire.merkleRoot b.Transactions ≠ some b.Header.MerkleRoot)
        [genesisBlock, regTestGenesisBlock, testNet3GenesisBlock, simNetGenesisBlock]
      ∧ wire.merkleRoot
          [{ genesisCoinbaseTx with
              TxIn := genesisCoinbaseTx.TxIn.map (fun i =>
                { i with SignatureScript :=
                    [0x04, 0xff, 0xff, 0x00, 0x1d, 0x01, 0x04, 0x4c, 0x5c]
                      ++ i.SignatureScript }) }]
          = some genesisMerkleRoot := by
  decide!

/-- C3: the test network (version 3) check fails on the stored data.  The
two-round digest of the encoded header of `testNet3GenesisBlock` is
`27d392fb…b24e` in storage order, not `testNet3GenesisHash`.  The constant
is the hash of the same header with the 32-byte Merkle root `4a5e1e4b…a33b`
that the source comment next to the `MerkleRoot` field names. -/
theorem testNet3Genesis_hash_mismatch :
    chainhash.toHex (wire.computeBlockHash testNet3GenesisBlock.Header)
        = "27d392fb3f6cdd9b8b65ea4933224e329119f09166ee055ca2e3a18f94e7b24e"
      ∧ wire.computeBlockHash testNet3GenesisBlock.Header ≠ testNet3GenesisHash
      ∧ ∃ r : chainhash.Hash,
          r.length = 32 ∧ r.all (fun x => decide (x < 256)) = true
            ∧ chainhash.toDisplayHex r
              = "4a5e1e4baab89f3a32518a88c31bc87f618f76673e2cc77ab2127b7afdeda33b"
            ∧ wire.computeBlockHash { testNet3GenesisBlock.Header with MerkleRoot := r }
              = testNet3GenesisHash := by
  refine ⟨by decide!, by decide!, ?_⟩
  exact ⟨[0x3b, 0xa3, 0xed, 0xfd, 0x7a, 0x7b, 0x12, 0xb2, 0x7a, 0xc7, 0x2c, 0x3e,
          0x67, 0x76, 0x8f, 0x61, 0x7f, 0xc8, 0x1b, 0xc3, 0x88, 0x8a, 0x51, 0x32,
          0x3a, 0x9f, 0xb8, 0xaa, 0x4b, 0x1e, 0x5e, 0x4a],
    by decide, by decide, by decide!, by decide!⟩

/-- C4: the simulation network check fails on the stored data.  The
two-round digest of the encoded header of `simNetGenesisBlock` is
`f67625bb…0ab8` in storage order, not `simNetGenesisHash`.  The constant is
the hash of the same header with the 32-byte Merkle root `4a5e1e4b…a33b`
that the source comment next to the `MerkleRoot` field names. -/
theorem simNetGenesis_hash_mismatch :
    chainhash.toHex (wire.computeBlockHash simNetGenesisBlock.Header)
        = "f67625bb240ee2b745e6b35aa19a2b31637c5e007b6c3baf3c639547183d0ab8"
      ∧ wire.computeBlockHash simNetGenesisBlock.Header ≠ simNetGenesisHash
      ∧ ∃ r : chainhash.Hash,
          r.length = 32 ∧ r.all (fun x => decide (x < 256)) = true
            ∧ chainhash.toDisplayHex r
              = "4a5e1e4baab89f3a32518a88c31bc87f618f76673e2cc77ab2127b7afdeda33b"
            ∧ wire.computeBlockHash { simNetGenesisBlock.Header with MerkleRoot := r }
              = simNetGenesisHash := by
  refine ⟨by decide!, by decide!, ?_⟩
  exact ⟨[0x3b, 0xa3, 0xed, 0xfd, 0x7a, 0x7b, 0x12, 0xb2, 0x7a, 0xc7, 0x2c, 0x3e,
          0x67, 0x76, 0x8f, 0x61, 0x7f, 0xc8, 0x1b, 0xc3, 0x88, 0x8a, 0x51, 0x32,
          0x3a, 0x9f, 0xb8, 0xaa, 0x4b, 0x1e, 0x5e, 0x4a],
    by decide, by decide, by decide!, by decide!⟩

/-- C5, as stated, fails: it is not the case that the main genesis header has
the listed fields, a Merkle root displayed as `1a3c740e…cf61`, and a block
hash and a constant `genesisHash` whose reversed-byte display is
`bd8b9425…93e5`. -/
theorem genesis_display_claim_fails :
    ¬ (genesisBlock.Header.Version = 1
        ∧ genesisBlock.Header.PrevBlock = List.replicate 32 0
        ∧ chainhash.toDisplayHex genesisBlock.Header.MerkleRoot
            = "1a3c740e7925ca7d5b6626f5f502f569bf3d504c39c4f4e9818e34c9c539cf61"
        ∧ genesisBlock.Header.Timestamp = 1524352308
        ∧ genesisBlock.Header.Bits = 0x1e0ffff0
        ∧ genesisBlock.Header.Nonce = 0x940988CF
        ∧ chainhash.toDisplayHex (wire.computeBlockHash genesisBlock.Header)
            = "bd8b9425b1dc166f2d17a1539f3912f01ea0df897a99e322470b380346d193e5"
        ∧ chainhash.toDisplayHex genesisHash
            = "bd8b9425b1dc166f2d17a1539f3912f01ea0df897a99e322470b380346d193e5") := by
  decide!

/-- C5, amended: the main genesis header has version 1, an all-zero
`PrevBlock`, a Merkle root whose reversed-byte display is `1a3c740e…cf61`,
timestamp 1524352308, bits `0x1e0ffff0` and nonce `0x940988CF`; the string
`bd8b9425…93e5` is the hex of its block hash, and of `genesisHash`, in
storage byte order, and their reversed-byte display is `e593d146…8bbd`. -/
theorem genesis_display_amended :
    genesisBlock.Header.Version = 1
      ∧ genesisBlock.Header.PrevBlock = List.replicate 32 0
      ∧ chainhash.toDisplayHex genesisBlock.Header.MerkleRoot
          = "1a3c740e7925ca7d5b6626f5f502f569bf3d504c39c4f4e9818e34c9c539cf61"
      ∧ genesisBlock.Header.Timestamp = 1524352308
      ∧ genesisBlock.Header.Bits = 0x1e0ffff0
      ∧ genesisBlock.Header.Nonce = 0x940988CF
      ∧ chainhash.toHex (wire.computeBlockHash genesisBlock.Header)
          = "bd8b9425b1dc166f2d17a1539f3912f01ea0df897a99e322470b380346d193e5"
      ∧ chainhash.toHex genesisHash
          = "bd8b9425b1dc166f2d17a1539f3912f01ea0df897a99e322470b380346d193e5"
      ∧ chainhash.toDisplayHex (wire.computeBlockHash genesisBlock.Header)
          = "e593d14603380b4722e3997a89dfa01ef012399f53a1172d6f16dcb125948bbd"
      ∧ chainhash.toDisplayHex genesisHash
          = "e593d14603380b4722e3997a89dfa01ef012399f53a1172d6f16dcb125948bbd" := by
  decide!

/-- C6, as stated, fails: it is not the case that the single input of
`genesisCoinbaseTx` has a 96-byte signature script and its single output a
35-byte public-key script. -/
theorem genesisCoinbaseTx_lengths_claim_fails :
    ¬ (genesisCoinbaseTx.TxIn.map (fun i => i.SignatureScript.length) = [96]
        ∧ genesisCoinbaseTx.TxOut.map (fun o => o.PkScript.length) = [35]) := by
  decide

/-- C6, amended: the single output of `genesisCoinbaseTx` has a public-key
script of exactly 67 bytes, and when encoded the script is prefixed by a
one-byte compact-size count of that value: the length-prefixed payload is the
byte 67 followed by the script, the encoded output is the eight value bytes,
the byte 67 and the script, and the encoded transaction ends with the byte
67, the 67 script bytes and the four bytes of the lock time. -/
theorem genesisCoinbaseTx_pkScript_length :
    genesisCoinbaseTx.TxOut.map (fun o => o.PkScript.length) = [67]
      ∧ genesisCoinbaseTx.TxOut.map (fun o => wire.putVarInt o.PkScript.length) = [[67]]
      ∧ genesisCoinbaseTx.TxOut.map (fun o => wire.putVarBytes o.PkScript)
          = genesisCoinbaseTx.TxOut.map (fun o => 67 :: o.PkScript)
      ∧ genesisCoinbaseTx.TxOut.map wire.encodeTxOut
          = genesisCoinbaseTx.TxOut.map (fun o => wire.putInt64 o.Value ++ 67 :: o.PkScript)
      ∧ List.drop ((wire.encodeTransaction genesisCoinbaseTx).length - (1 + 67 + 4))
            (wire.encodeTransaction genesisCoinbaseTx)
          = genesisCoinbaseTx.TxOut.flatMap (fun o => 67 :: o.PkScript)
              ++ wire.putUint32 genesisCoinbaseTx.LockTime := by
  decide!

/-- C7: the simulation-network and test-network (version 3) genesis blocks
carry the same single coinbase transaction as the main genesis block and the
same header `MerkleRoot`; each differs from the main header in timestamp, in
bits and in nonce; the three expected block-hash constants are pairwise
different. -/
theorem genesis_sharing_across_networks :
    (∀ b ∈ [testNet3GenesisBlock, simNetGenesisBlock],
        b.Transactions = [genesisCoinbaseTx]
          ∧ b.Transactions = genesisBlock.Transactions
          ∧ b.Header.MerkleRoot = genesisBlock.Header.MerkleRoot
          ∧ b.Header.Timestamp ≠ genesisBlock.Header.Timestamp
          ∧ b.Header.Bits ≠ genesisBlock.Header.Bits
          ∧ b.Header.Nonce ≠ genesisBlock.Header.Nonce)
      ∧ testNet3GenesisHash ≠ genesisHash
      ∧ simNetGenesisHash ≠ genesisHash
      ∧ simNetGenesisHash ≠ testNet3GenesisHash := by
  decide

/-- C8: each of the four genesis blocks has exactly one transaction, that
transaction has exactly one input, and the previous outpoint of that input
is the null outpoint: an all-zero 32-byte hash and index `0xFFFFFFFF`. -/
theorem genesis_coinbase_invariant :
    List.Forall
      (fun b : wire.MsgBlock =>
        b.Transactions.length = 1
          ∧ b.Transactions.map (fun tx => tx.TxIn.length) = [1]
          ∧ b.Transactions.map (fun tx => tx.TxIn.map (fun i => i.PreviousOutPoint))
              = [[{ Hash := List.replicate 32 0, Index := 0xFFFFFFFF }]])
      [genesisBlock, regTestGenesisBlock, testNet3GenesisBlock, simNetGenesisBlock] := by
  decide

/-- C9: for every supported network the `PrevBlock` field of the genesis
block header is the all-zero 32-byte hash. -/
theorem genesis_no_predecessor :
    List.Forall (fun b : wire.MsgBlock => b.Header.PrevBlock = List.replicate 32 0)
      [genesisBlock, regTestGenesisBlock, testNet3GenesisBlock, simNetGenesisBlock] := by
  decide

/-- C10: the regression-test genesis equals the main genesis: the headers
agree field for field (version 1, all-zero `PrevBlock`, the same
`MerkleRoot`, timestamp 1524352308, bits `0x1e0ffff0`, nonce `0x940988CF`),
the transaction lists agree, and `regTestGenesisHash = genesisHash`; hence,
whatever the block hash function, the regression-test hash check holds
exactly when the main network's does. -/
theorem regTestGenesis_same_as_main :
    regTestGenesisBlock.Header = genesisBlock.Header
      ∧ regTestGenesisBlock.Header =
          { Version := 1, PrevBlock := List.replicate 32 0, MerkleRoot := genesisMerkleRoot,
            Timestamp := 1524352308, Bits := 0x1e0ffff0, Nonce := 0x940988CF }
      ∧ regTestGenesisBlock.Transactions = genesisBlock.Transactions
      ∧ regTestGenesisHash = genesisHash
      ∧ ∀ blockHash : wire.BlockHeader → chainhash.Hash,
          blockHash regTestGenesisBlock.Header = regTestGenesisHash
            ↔ blockHash genesisBlock.Header = genesisHash := by
  refine ⟨by decide, by decide, by decide, by decide, fun blockHash => ?_⟩
  have hh : regTestGenesisBlock.Header = genesisBlock.Header := by decide
  have hc : regTestGenesisHash = genesisHash := by decide
  rw [hh, hc]

end chaincfg
